import Mathlib

/-!
Shallow embedding of the `cedarling_pg` PostgreSQL extension
(`src/jans-cedarling/cedarling_pg/src/`): token bundle validation
(`token.rs`), the authorization decision filter (`authorization.rs`,
`config.rs`) and the error taxonomy (`error.rs`).

External collaborators (the `jsonwebtoken` functions `decode_header` and
`decode`, `serde_json` parsing, the STANDARD engine of the `base64`
crate, the policy engine `cedarling.authorize`, and the wall clock
sampled by `chrono::Utc::now`) are passed in as explicit function
parameters; the logic of the repository itself is translated directly
from the Rust source.
The wall clock is modelled as a stream of readings `Nat → Int`: the
`i`-th call to `Utc::now().timestamp()` during one `validate` call
observes sample `i`.
-/

/-- JSON values as manipulated through `serde_json::Value`.  Numbers are
modelled as integers; `asI64` mirrors `Value::as_i64`, which yields a
value exactly on integral numbers. -/
inductive Json where
  | null : Json
  | bool (b : Bool) : Json
  | num (n : Int) : Json
  | str (s : String) : Json
  | arr (xs : List Json) : Json
  | obj (fields : List (String × Json)) : Json

/-- Mirror of `serde_json::Value::as_i64`. -/
def Json.asI64 : Json → Option Int
  | .num n => some n
  | _ => none

/-- Mirror of `serde_json::Value::as_str`. -/
def Json.asStr : Json → Option String
  | .str s => some s
  | _ => none

/-- A `HashMap<String, Value>` of claims, modelled as an association list. -/
abbrev ClaimMap : Type := List (String × Json)

/-- Mirror of `HashMap::get` on a claim map. -/
def getClaim (m : ClaimMap) (k : String) : Option Json :=
  (List.find? (fun kv => kv.1 = k) m).map (fun kv => kv.2)

/-- Mirror of `map.get(k).and_then(|v| v.as_str())` as used by
`validate_token_consistency`. -/
def getStrClaim (m : ClaimMap) (k : String) : Option String :=
  (getClaim m k).bind Json.asStr

/-- Mirror of `HashMap::insert`: replace the binding if the key exists,
otherwise add it. -/
def hmInsert (m : ClaimMap) (k : String) (v : Json) : ClaimMap :=
  if (List.find? (fun kv => kv.1 = k) m).isSome then
    List.map (fun kv => if kv.1 = k then (k, v) else kv) m
  else
    m ++ [(k, v)]

/-- Error taxonomy of `error.rs` (`enum CedarlingError`). -/
inductive CedarlingError where
  | TokenValidation (msg : String) : CedarlingError
  | ResourceConstruction (msg : String) : CedarlingError
  | PolicyEvaluation (msg : String) : CedarlingError
  | Configuration (msg : String) : CedarlingError
  | System (msg : String) : CedarlingError
  | Cache (msg : String) : CedarlingError
  | JsonParsing (msg : String) : CedarlingError
  | Database (msg : String) : CedarlingError
  | AuthorizationDenied (msg : String) : CedarlingError
  | PolicyLoading (msg : String) : CedarlingError
  | SchemaValidation (msg : String) : CedarlingError
  | Network (msg : String) : CedarlingError
  | Timeout (msg : String) : CedarlingError
deriving DecidableEq, Repr

/-- Log levels of `error.rs` (`enum LogLevel`). -/
inductive LogLevel where
  | Debug : LogLevel
  | Info : LogLevel
  | Warning : LogLevel
  | Error : LogLevel
deriving DecidableEq, Repr

/-- Mirror of `CedarlingError::should_deny` (error.rs lines 52-75). -/
def CedarlingError.should_deny : CedarlingError → Bool
  | .TokenValidation _ => true
  | .AuthorizationDenied _ => true
  | .PolicyEvaluation _ => true
  | .System _ => true
  | .Database _ => true
  | .Network _ => true
  | .Timeout _ => true
  | .PolicyLoading _ => true
  | .Configuration _ => true
  | .SchemaValidation _ => true
  | .ResourceConstruction _ => false
  | .JsonParsing _ => false
  | .Cache _ => false

/-- Mirror of `CedarlingError::log_level` (error.rs lines 78-101). -/
def CedarlingError.log_level : CedarlingError → LogLevel
  | .TokenValidation _ => .Error
  | .AuthorizationDenied _ => .Info
  | .PolicyEvaluation _ => .Error
  | .PolicyLoading _ => .Error
  | .SchemaValidation _ => .Error
  | .System _ => .Warning
  | .Database _ => .Error
  | .Network _ => .Warning
  | .Timeout _ => .Warning
  | .Configuration _ => .Error
  | .ResourceConstruction _ => .Warning
  | .JsonParsing _ => .Warning
  | .Cache _ => .Debug

/-- Mirror of `CedarlingError::category` (error.rs lines 104-120). -/
def CedarlingError.category : CedarlingError → String
  | .TokenValidation _ => "token_validation"
  | .ResourceConstruction _ => "resource_construction"
  | .PolicyEvaluation _ => "policy_evaluation"
  | .Configuration _ => "configuration"
  | .System _ => "system"
  | .Cache _ => "cache"
  | .JsonParsing _ => "json_parsing"
  | .Database _ => "database"
  | .AuthorizationDenied _ => "authorization_denied"
  | .PolicyLoading _ => "policy_loading"
  | .SchemaValidation _ => "schema_validation"
  | .Network _ => "network"
  | .Timeout _ => "timeout"

/-- Operation modes of `config.rs` (`enum OperationMode`). -/
inductive OperationMode where
  | Enforcement : OperationMode
  | Instrumentation : OperationMode
  | Shadow : OperationMode
deriving DecidableEq, Repr

/-- Fail modes of `config.rs` (`enum FailMode`). -/
inductive FailMode where
  | Closed : FailMode
  | Open : FailMode
deriving DecidableEq, Repr

/-- Bundle of JWT tokens (`token.rs`, `struct TokenBundle`). -/
structure TokenBundle where
  access_token : Option String
  id_token : Option String
  userinfo_token : Option String
deriving DecidableEq, Repr

/-- Cedar resource (`resource.rs`, `struct CedarResource`). -/
structure CedarResource where
  entity_type : String
  id : String
  attributes : List (String × Json)

/-- Entity data handed to the policy engine (`cedarling::EntityData`). -/
structure EntityData where
  entity_type : String
  id : String
  attributes : List (String × Json)

/-- Mirror of `CedarResource::to_entity_data` (resource.rs lines 31-39). -/
def CedarResource.to_entity_data (r : CedarResource) : EntityData :=
  { entity_type := r.entity_type, id := r.id, attributes := r.attributes }

/-- Authorization request handed to the policy engine
(`cedarling::Request`).  The token map is an association list in the
insertion order of `authorize_row`. -/
structure Request where
  tokens : List (String × String)
  action : String
  resource : EntityData
  context : Json

/-- The token map built by `authorize_row` (authorization.rs lines
86-95): one entry per present token, inserted access, id, userinfo. -/
def build_tokens (b : TokenBundle) : List (String × String) :=
  (match b.access_token with
   | some t => [("access_token", t)]
   | none => []) ++
  (match b.id_token with
   | some t => [("id_token", t)]
   | none => []) ++
  (match b.userinfo_token with
   | some t => [("userinfo_token", t)]
   | none => [])

/-- The request built by `authorize_row` (authorization.rs lines 97-102). -/
def mk_request (resource : CedarResource) (b : TokenBundle) (action : String) : Request :=
  { tokens := build_tokens b
    action := action
    resource := resource.to_entity_data
    context := Json.obj [] }

/-- The policy engine `cedarling.authorize`, an external collaborator:
on success it carries the boolean `result.decision`. -/
abbrev Engine : Type := Request → Except String Bool

/-- Mirror of `authorize_row` (authorization.rs lines 77-145).  The
engine and the per-call configuration reads `get_operation_mode` /
`get_fail_mode` are passed as parameters. -/
def authorize_row (engine : Engine) (mode : OperationMode) (fm : FailMode)
    (resource : CedarResource) (b : TokenBundle) (action : String) :
    Except CedarlingError Bool :=
  match engine (mk_request resource b action) with
  | .ok decision =>
      match mode with
      | .Enforcement => .ok decision
      | .Instrumentation => .ok true
      | .Shadow => .ok true
  | .error _ =>
      match fm with
      | .Closed => .ok false
      | .Open => .ok true

/-- Mirror of `authorize_manual` (authorization.rs lines 148-160).  The
two `serde_json::from_str` calls are passed as parameters `pr` (resource)
and `pt` (token bundle). -/
def authorize_manual (pr : String → Except String CedarResource)
    (pt : String → Except String TokenBundle)
    (engine : Engine) (mode : OperationMode) (fm : FailMode)
    (resource_json : String) (token_json : String) (action : String) :
    Except CedarlingError Bool :=
  match pr resource_json with
  | .error e => .error (.JsonParsing ("Invalid resource JSON: " ++ e))
  | .ok resource =>
      match pt token_json with
      | .error e => .error (.JsonParsing ("Invalid token JSON: " ++ e))
      | .ok bundle => authorize_row engine mode fm resource bundle action

/-- Mirror of the SQL surface `cedarling_authorized` (lib.rs lines
15-26): wraps `authorize_manual` with action `"Read"` and converts any
error to a `false` decision. -/
def cedarling_authorized (pr : String → Except String CedarResource)
    (pt : String → Except String TokenBundle)
    (engine : Engine) (mode : OperationMode) (fm : FailMode)
    (resource_data : String) (token_bundle : String) : Bool :=
  match authorize_manual pr pt engine mode fm resource_data token_bundle "Read" with
  | .ok decision => decision
  | .error _ => false

/-- Mirror of the Rust `str::split` call on the dot character: split a character list on a
separator character; an empty input yields one empty segment. -/
def splitOnChar (c : Char) : List Char → List (List Char)
  | [] => [[]]
  | x :: xs =>
    match splitOnChar c xs with
    | [] => [[]]
    | y :: ys => if x = c then [] :: y :: ys else (x :: y) :: ys

/-- JWT header algorithms (`jsonwebtoken::Algorithm`). -/
inductive Algorithm where
  | HS256 | HS384 | HS512
  | ES256 | ES384
  | RS256 | RS384 | RS512
  | PS256 | PS384 | PS512
  | EdDSA
deriving DecidableEq, Repr

/-- Debug rendering of an algorithm, used in error messages. -/
def Algorithm.name : Algorithm → String
  | .HS256 => "HS256"
  | .HS384 => "HS384"
  | .HS512 => "HS512"
  | .ES256 => "ES256"
  | .ES384 => "ES384"
  | .RS256 => "RS256"
  | .RS384 => "RS384"
  | .RS512 => "RS512"
  | .PS256 => "PS256"
  | .PS384 => "PS384"
  | .PS512 => "PS512"
  | .EdDSA => "EdDSA"

/-- Decoded JWT header (`jsonwebtoken::Header`), reduced to the only
field the source inspects. -/
structure JwtHeader where
  alg : Algorithm
deriving DecidableEq, Repr

/-- External collaborator `jsonwebtoken::decode_header`. -/
abbrev DecodeHeaderFn : Type := String → Except String JwtHeader

/-- External collaborator `jsonwebtoken::decode::<HashMap<String, Value>>`
with signature validation disabled, as configured in
`extract_jwt_claims`. -/
abbrev JwtDecodeFn : Type := String → Except String ClaimMap

/-- External collaborator `serde_json::from_slice::<HashMap<String, Value>>`. -/
abbrev ParseJsonFn : Type := List Nat → Except String ClaimMap

/-- External collaborator `base64::engine::general_purpose::STANDARD.decode`. -/
abbrev B64Fn : Type := List Char → Except String (List Nat)

/-- Wall-clock model: sample `i` is the value observed by the `i`-th
call to `chrono::Utc::now().timestamp()` within one `validate` call. -/
abbrev Clock : Type := Nat → Int

/-- Mirror of `base64_decode_jwt_part` (token.rs lines 158-171): pad to
a multiple of 4, map URL-safe characters to the standard alphabet, then
run the external STANDARD decoder. -/
def base64_decode_jwt_part (b64 : B64Fn) (part : List Char) :
    Except CedarlingError (List Nat) :=
  let padded := part ++ List.replicate ((4 - part.length % 4) % 4) '='
  let standard_b64 := padded.map (fun ch => if ch = '-' then '+' else if ch = '_' then '/' else ch)
  match b64 standard_b64 with
  | .ok bytes => .ok bytes
  | .error e => .error (.TokenValidation ("Failed to decode base64: " ++ e))

/-- Mirror of `extract_jwt_claims` (token.rs lines 125-155): first try
the structured decode; on failure, fall back to manually decoding the
payload segment when the token has at least two segments. -/
def extract_jwt_claims (jd : JwtDecodeFn) (pj : ParseJsonFn) (b64 : B64Fn)
    (token : String) : Except CedarlingError ClaimMap :=
  match jd token with
  | .ok token_data => .ok token_data
  | .error e =>
    let parts := splitOnChar '.' token.data
    if 2 ≤ parts.length then
      match base64_decode_jwt_part b64 (parts.getD 1 []) with
      | .ok decoded =>
        match pj decoded with
        | .ok claims => .ok claims
        | .error e2 => .error (.JsonParsing ("Failed to parse JWT payload: " ++ e2))
      | .error err => .error err
    else
      .error (.TokenValidation ("Failed to decode JWT: " ++ e))

/-- Mirror of `validate_jwt_format` (token.rs lines 106-122): exactly
three dot-separated segments, and the header must decode. -/
def validate_jwt_format (dh : DecodeHeaderFn) (token token_type : String) :
    Except CedarlingError Unit :=
  let parts := splitOnChar '.' token.data
  if parts.length ≠ 3 then
    .error (.TokenValidation (token_type ++ " does not have valid JWT format"))
  else
    match dh token with
    | .error e => .error (.TokenValidation ("Invalid " ++ token_type ++ " header: " ++ e))
    | .ok _ => .ok ()

/-- Algorithm gate of `validate_jwt_with_signature` (token.rs lines
207-229): asymmetric algorithms accepted silently, symmetric ones with a
warning, anything else is a hard failure. -/
def check_algorithm (alg : Algorithm) (token_type : String) :
    Except CedarlingError Unit :=
  match alg with
  | .RS256 | .RS384 | .RS512 | .ES256 | .ES384 => .ok ()
  | .HS256 | .HS384 | .HS512 => .ok ()
  | a => .error (.TokenValidation ("Unsupported algorithm for " ++ token_type ++ ": " ++ a.name))

/-- Expiration check of `validate_standard_claims` (token.rs lines
258-275): a present non-integer `exp` is a hard failure, a present
integer `exp` strictly below `now` is expired, an absent `exp` is a
warning only. -/
def check_exp (now : Int) (claims : ClaimMap) (token_type : String) :
    Except CedarlingError Unit :=
  match getClaim claims "exp" with
  | some v =>
    match v.asI64 with
    | some exp_time =>
      if exp_time < now then .error (.TokenValidation (token_type ++ " has expired"))
      else .ok ()
    | none => .error (.TokenValidation (token_type ++ " has invalid exp claim format"))
  | none => .ok ()

/-- Not-before check of `validate_standard_claims` (token.rs lines
278-287): a non-integer `nbf` is silently skipped. -/
def check_nbf (now : Int) (claims : ClaimMap) (token_type : String) :
    Except CedarlingError Unit :=
  match getClaim claims "nbf" with
  | some v =>
    match v.asI64 with
    | some nbf_time =>
      if nbf_time > now then .error (.TokenValidation (token_type ++ " not yet valid (nbf)"))
      else .ok ()
    | none => .ok ()
  | none => .ok ()

/-- Issued-at check of `validate_standard_claims` (token.rs lines
290-305): stale tokens only warn; an `iat` more than 300 seconds in the
future is a hard failure; a non-integer `iat` is silently skipped. -/
def check_iat (now : Int) (claims : ClaimMap) (token_type : String) :
    Except CedarlingError Unit :=
  match getClaim claims "iat" with
  | some v =>
    match v.asI64 with
    | some iat_time =>
      if iat_time > now + 300 then .error (.TokenValidation (token_type ++ " issued in the future (iat)"))
      else .ok ()
    | none => .ok ()
  | none => .ok ()

/-- Issuer check of `validate_standard_claims` (token.rs lines 308-324):
an empty string issuer is a hard failure, a missing issuer is a hard
failure except for the userinfo token, a non-string issuer is skipped. -/
def check_iss (claims : ClaimMap) (token_type : String) :
    Except CedarlingError Unit :=
  match getClaim claims "iss" with
  | some v =>
    match v.asStr with
    | some iss_str =>
      if iss_str = "" then .error (.TokenValidation (token_type ++ " has empty issuer"))
      else .ok ()
    | none => .ok ()
  | none =>
    if token_type ≠ "userinfo_token" then
      .error (.TokenValidation (token_type ++ " missing required iss claim"))
    else .ok ()

/-- Subject check of `validate_standard_claims` (token.rs lines
327-339): only an empty string subject is a hard failure; a missing
subject is at most a warning. -/
def check_sub (claims : ClaimMap) (token_type : String) :
    Except CedarlingError Unit :=
  match getClaim claims "sub" with
  | some v =>
    match v.asStr with
    | some sub_str =>
      if sub_str = "" then .error (.TokenValidation (token_type ++ " has empty subject"))
      else .ok ()
    | none => .ok ()
  | none => .ok ()

/-- Mirror of `validate_standard_claims` (token.rs lines 252-342).  The
Rust function samples `chrono::Utc::now().timestamp()` at its start;
that sampled value is the `now` parameter. -/
def validate_standard_claims (now : Int) (claims : ClaimMap) (token_type : String) :
    Except CedarlingError Unit := do
  check_exp now claims token_type
  check_nbf now claims token_type
  check_iat now claims token_type
  check_iss claims token_type
  check_sub claims token_type

/-- Mirror of `validate_jwt_with_signature` (token.rs lines 197-249):
three-segment shape check, header decode, algorithm gate, claim
extraction, standard claim validation; actual signature verification is
bypassed in the source. -/
def validate_jwt_with_signature (dh : DecodeHeaderFn) (jd : JwtDecodeFn)
    (pj : ParseJsonFn) (b64 : B64Fn) (now : Int) (token token_type : String) :
    Except CedarlingError Unit :=
  (validate_jwt_format dh token token_type).bind (fun _ =>
  ((match dh token with
    | .ok h => Except.ok h
    | .error e => Except.error (.TokenValidation ("Invalid " ++ token_type ++ " header: " ++ e))
    : Except CedarlingError JwtHeader)).bind (fun header =>
  (check_algorithm header.alg token_type).bind (fun _ =>
  (extract_jwt_claims jd pj b64 token).bind (fun claims =>
  validate_standard_claims now claims token_type))))

/-- Access/id block of `validate_token_consistency` (token.rs lines
362-384): when both claim sets are present and both `client_id` (access)
and `aud` (id) read as strings, they must be equal; the `iss` comparison
of the same block only logs a warning and has no effect on the result. -/
def check_access_id (access_claims id_claims : Option ClaimMap) :
    Except CedarlingError Unit :=
  match access_claims, id_claims with
  | some access, some id =>
    match getStrClaim access "client_id", getStrClaim id "aud" with
    | some client_id, some aud =>
      if client_id ≠ aud then
        Except.error (.TokenValidation "access_token client_id does not match id_token aud")
      else Except.ok ()
    | _, _ => Except.ok ()
  | _, _ => Except.ok ()

/-- Id/userinfo block of `validate_token_consistency` (token.rs lines
387-411): when both claim sets are present, a string mismatch in `sub`
or in `aud` is a hard failure. -/
def check_id_userinfo (id_claims userinfo_claims : Option ClaimMap) :
    Except CedarlingError Unit :=
  match id_claims, userinfo_claims with
  | some id, some userinfo =>
    ((match getStrClaim id "sub", getStrClaim userinfo "sub" with
      | some id_sub, some userinfo_sub =>
        if id_sub ≠ userinfo_sub then
          Except.error (.TokenValidation "id_token sub does not match userinfo_token sub")
        else Except.ok ()
      | _, _ => Except.ok ()
      : Except CedarlingError Unit)).bind (fun _ =>
    match getStrClaim id "aud", getStrClaim userinfo "aud" with
    | some id_aud, some userinfo_aud =>
      if id_aud ≠ userinfo_aud then
        Except.error (.TokenValidation "id_token aud does not match userinfo_token aud")
      else Except.ok ()
    | _, _ => Except.ok ())
  | _, _ => Except.ok ()

/-- Mirror of `validate_token_consistency` (token.rs lines 345-414):
re-extract the claims of every present token, then run the access/id
and id/userinfo comparison blocks.  Each comparison happens only when
both sides read as strings. -/
def validate_token_consistency (jd : JwtDecodeFn) (pj : ParseJsonFn) (b64 : B64Fn)
    (b : TokenBundle) : Except CedarlingError Unit :=
  (match b.access_token with
   | some t => (extract_jwt_claims jd pj b64 t).map some
   | none => Except.ok none).bind (fun access_claims =>
  (match b.id_token with
   | some t => (extract_jwt_claims jd pj b64 t).map some
   | none => Except.ok none).bind (fun id_claims =>
  (match b.userinfo_token with
   | some t => (extract_jwt_claims jd pj b64 t).map some
   | none => Except.ok none).bind (fun userinfo_claims =>
  (check_access_id access_claims id_claims).bind (fun _ =>
  check_id_userinfo id_claims userinfo_claims))))

/-- Mirror of `TokenBundle::validate` (token.rs lines 40-63): presence
check, then per-token `validate_jwt_with_signature` in the order access,
id, userinfo, then cross-token consistency.  Clock sample `k` is what the
`k`-th executed `validate_standard_claims` observes as `now`. -/
def TokenBundle.validate (dh : DecodeHeaderFn) (jd : JwtDecodeFn)
    (pj : ParseJsonFn) (b64 : B64Fn) (clock : Clock) (b : TokenBundle) :
    Except CedarlingError Unit :=
  if b.access_token.isNone && b.id_token.isNone && b.userinfo_token.isNone then
    .error (.TokenValidation "At least one token must be provided")
  else
    (match b.access_token with
     | some t => (validate_jwt_with_signature dh jd pj b64 (clock 0) t "access_token").map (fun _ => 1)
     | none => Except.ok 0).bind (fun k1 =>
    (match b.id_token with
     | some t => (validate_jwt_with_signature dh jd pj b64 (clock k1) t "id_token").map (fun _ => k1 + 1)
     | none => Except.ok k1).bind (fun k2 =>
    (match b.userinfo_token with
     | some t => (validate_jwt_with_signature dh jd pj b64 (clock k2) t "userinfo_token").map (fun _ => ())
     | none => Except.ok ()).bind (fun _ =>
    validate_token_consistency jd pj b64 b)))

/-- Standard claim keys recognized by `merge_claims` (token.rs lines
184-187). -/
def standardClaimKeys : List String := ["sub", "iss", "aud", "exp", "nbf", "iat", "jti"]

/-- Mirror of `merge_claims` (token.rs lines 174-194): standard claims
go to the shared standard map, custom claims are keyed with the
originating token kind as a tag. -/
def merge_claims (acc : ClaimMap × ClaimMap) (token_claims : ClaimMap)
    (tag : String) : ClaimMap × ClaimMap :=
  token_claims.foldl
    (fun acc kv =>
      if kv.1 ∈ standardClaimKeys then (hmInsert acc.1 kv.1 kv.2, acc.2)
      else (acc.1, hmInsert acc.2 (tag ++ "_" ++ kv.1) kv.2))
    acc

/-- Extracted claims of a bundle (`token.rs`, `struct TokenClaims`). -/
structure TokenClaims where
  standard_claims : ClaimMap
  custom_claims : ClaimMap

/-- Mirror of `TokenBundle::extract_claims` (token.rs lines 66-102):
extract and merge the claims of every present token; no format or
standard-claim validation happens here. -/
def TokenBundle.extract_claims (jd : JwtDecodeFn) (pj : ParseJsonFn) (b64 : B64Fn)
    (b : TokenBundle) : Except CedarlingError TokenClaims :=
  let acc0 : ClaimMap × ClaimMap := ([], [])
  (match b.access_token with
   | some t => (extract_jwt_claims jd pj b64 t).map (fun c => merge_claims acc0 c "access_token")
   | none => Except.ok acc0).bind (fun acc1 =>
  (match b.id_token with
   | some t => (extract_jwt_claims jd pj b64 t).map (fun c => merge_claims acc1 c "id_token")
   | none => Except.ok acc1).bind (fun acc2 =>
  (match b.userinfo_token with
   | some t => (extract_jwt_claims jd pj b64 t).map (fun c => merge_claims acc2 c "userinfo_token")
   | none => Except.ok acc2).bind (fun acc3 =>
  Except.ok ⟨acc3.1, acc3.2⟩)))

/-- Header decoder for the C4 counterexample: every token has an RS256
header. -/
def c4Dh : DecodeHeaderFn := fun _ => .ok ⟨.RS256⟩

/-- Claim decoder for the C4 counterexample: the access token carries
`exp = 100`, the id token `exp = 5`, both with issuer `"s"`. -/
def c4Jd : JwtDecodeFn := fun t =>
  if t = "A.a.a" then .ok [("iss", Json.str "s"), ("exp", Json.num 100)]
  else if t = "B.b.b" then .ok [("iss", Json.str "s"), ("exp", Json.num 5)]
  else .error "bad token"

/-- Payload parser for the C4 counterexample (never reached). -/
def c4Pj : ParseJsonFn := fun _ => .error "expected value"

/-- Base64 decoder for the C4 counterexample (never reached). -/
def c4B64 : B64Fn := fun _ => .ok []

/-- A clock that always reads 3. -/
def c4ClockShared : Clock := fun _ => 3

/-- A clock that reads 3 at validation start and 10 afterwards. -/
def c4ClockDrift : Clock := fun n => if n = 0 then 3 else 10

/-- The two-token bundle of the C4 counterexample. -/
def c4Bundle : TokenBundle := ⟨some "A.a.a", some "B.b.b", none⟩

/-- Header decoder for the C3 counterexample: every token has an RS256
header. -/
def c3Dh : DecodeHeaderFn := fun _ => .ok ⟨.RS256⟩

/-- Claim decoder for the C3 counterexample: the access token has string
claim client_id = "x", the id token string claim aud = "y", and the
userinfo token fails structured decoding. -/
def c3Jd : JwtDecodeFn := fun t =>
  if t = "A.a.a" then .ok [("iss", Json.str "s"), ("client_id", Json.str "x")]
  else if t = "B.b.b" then .ok [("iss", Json.str "s"), ("aud", Json.str "y")]
  else .error "bad token"

/-- Payload parser for the C3 counterexample: rejects every payload, so
the manual extraction of the userinfo token fails as a JSON parse
error. -/
def c3Pj : ParseJsonFn := fun _ => .error "expected value at line 1"

/-- Base64 decoder for the C3 counterexample: accepts every input. -/
def c3B64 : B64Fn := fun _ => .ok []

/-- The three-token bundle of the C3 counterexample. -/
def c3Bundle : TokenBundle := ⟨some "A.a.a", some "B.b.b", some "C.c.c"⟩

/-- Header decoder for the C3 witness. -/
def c3wDh : DecodeHeaderFn := fun _ => .ok ⟨.RS256⟩

/-- Claim decoder for the C3 witness: one token pair with mismatching
string client_id/aud, one pair with mismatching iss only, and one
id/userinfo pair with mismatching string sub. -/
def c3wJd : JwtDecodeFn := fun t =>
  if t = "A.a.a" then .ok [("iss", Json.str "s"), ("client_id", Json.str "x")]
  else if t = "B.b.b" then .ok [("iss", Json.str "s"), ("aud", Json.str "y")]
  else if t = "D.d.d" then .ok [("iss", Json.str "sa")]
  else if t = "E.e.e" then .ok [("iss", Json.str "sb")]
  else if t = "F.f.f" then .ok [("iss", Json.str "s"), ("sub", Json.str "u1")]
  else if t = "G.g.g" then .ok [("sub", Json.str "u2")]
  else .error "bad token"

/-- Payload parser for the C3 witness (never reached). -/
def c3wPj : ParseJsonFn := fun _ => .error "expected value"

/-- Base64 decoder for the C3 witness (never reached). -/
def c3wB64 : B64Fn := fun _ => .ok []

/-- Claim decoder for the C9 witness: client_id, aud and sub hold
non-string JSON values (arrays and numbers) that clearly disagree
across the tokens. -/
def c9Jd : JwtDecodeFn := fun t =>
  if t = "A.a.a" then .ok [("client_id", Json.arr [Json.str "x"])]
  else if t = "B.b.b" then .ok [("aud", Json.arr [Json.str "a"]), ("sub", Json.num 1)]
  else if t = "C.c.c" then .ok [("aud", Json.arr [Json.str "b"]), ("sub", Json.num 2)]
  else .error "bad token"

/-- Payload parser for the C9 witness (never reached). -/
def c9Pj : ParseJsonFn := fun _ => .error "expected value"

/-- Base64 decoder for the C9 witness (never reached). -/
def c9B64 : B64Fn := fun _ => .ok []

/-- Header decoder for the C10 witness. -/
def c10Dh : DecodeHeaderFn := fun _ => .ok ⟨.RS256⟩

/-- Structured decoder for the C10 witness: always fails, as the real
decoder does on a token without three segments. -/
def c10Jd : JwtDecodeFn := fun _ => .error "InvalidToken"

/-- Payload parser for the C10 witness: yields a claim object. -/
def c10Pj : ParseJsonFn := fun _ => .ok [("role", Json.str "admin")]

/-- Base64 decoder for the C10 witness: accepts every input. -/
def c10B64 : B64Fn := fun _ => .ok []

/-- Results whose only possible error kind is TokenValidation. -/
def OnlyTV {α : Type} (r : Except CedarlingError α) : Prop :=
  ∀ e, r = Except.error e → ∃ m, e = CedarlingError.TokenValidation m

/-- C8: for each of the 13 error kinds, `should_deny` and `log_level` are
fixed functions of the kind alone and return exactly the values of the
section 7 table of the spec: the ten security/system/configuration kinds deny
by default while ResourceConstruction, JsonParsing and Cache do not, and
the severities are as tabulated. -/
theorem c8_error_table (s : String) :
    (CedarlingError.TokenValidation s).should_deny = true ∧
    (CedarlingError.AuthorizationDenied s).should_deny = true ∧
    (CedarlingError.PolicyEvaluation s).should_deny = true ∧
    (CedarlingError.PolicyLoading s).should_deny = true ∧
    (CedarlingError.SchemaValidation s).should_deny = true ∧
    (CedarlingError.System s).should_deny = true ∧
    (CedarlingError.Database s).should_deny = true ∧
    (CedarlingError.Network s).should_deny = true ∧
    (CedarlingError.Timeout s).should_deny = true ∧
    (CedarlingError.Configuration s).should_deny = true ∧
    (CedarlingError.ResourceConstruction s).should_deny = false ∧
    (CedarlingError.JsonParsing s).should_deny = false ∧
    (CedarlingError.Cache s).should_deny = false ∧
    (CedarlingError.TokenValidation s).log_level = .Error ∧
    (CedarlingError.AuthorizationDenied s).log_level = .Info ∧
    (CedarlingError.PolicyEvaluation s).log_level = .Error ∧
    (CedarlingError.PolicyLoading s).log_level = .Error ∧
    (CedarlingError.SchemaValidation s).log_level = .Error ∧
    (CedarlingError.System s).log_level = .Warning ∧
    (CedarlingError.Database s).log_level = .Error ∧
    (CedarlingError.Network s).log_level = .Warning ∧
    (CedarlingError.Timeout s).log_level = .Warning ∧
    (CedarlingError.Configuration s).log_level = .Error ∧
    (CedarlingError.ResourceConstruction s).log_level = .Warning ∧
    (CedarlingError.JsonParsing s).log_level = .Warning ∧
    (CedarlingError.Cache s).log_level = .Debug := by
  repeat constructor

/-- C1: whenever the policy engine successfully returns a boolean
decision `d` for the request built by `authorize_row`, the function
returns `Ok d` in Enforcement mode and `Ok true` in Instrumentation and
Shadow modes, regardless of `d`. -/
theorem c1_mode_filter (engine : Engine) (fm : FailMode)
    (resource : CedarResource) (b : TokenBundle) (action : String) (d : Bool)
    (h : engine (mk_request resource b action) = .ok d) :
    authorize_row engine .Enforcement fm resource b action = .ok d ∧
    authorize_row engine .Instrumentation fm resource b action = .ok true ∧
    authorize_row engine .Shadow fm resource b action = .ok true := by
  refine ⟨?_, ?_, ?_⟩ <;> simp [authorize_row, h]

/-- Witness for C1 at a concrete engine, resource and bundle. -/
theorem c1_mode_filter_witness :
    authorize_row (fun _ => .ok false) .Enforcement .Closed
      ⟨"Doc", "1", []⟩ ⟨some "t", none, none⟩ "Read" = .ok false ∧
    authorize_row (fun _ => .ok false) .Instrumentation .Closed
      ⟨"Doc", "1", []⟩ ⟨some "t", none, none⟩ "Read" = .ok true ∧
    authorize_row (fun _ => .ok false) .Shadow .Closed
      ⟨"Doc", "1", []⟩ ⟨some "t", none, none⟩ "Read" = .ok true := by
  have h := c1_mode_filter (fun _ => .ok false) .Closed
    ⟨"Doc", "1", []⟩ ⟨some "t", none, none⟩ "Read" false rfl
  exact ⟨h.1, h.2.1, h.2.2⟩

/-- C2: whenever the policy engine call fails, `authorize_row` returns
`Ok false` under FailMode.Closed and `Ok true` under FailMode.Open; the
engine error is never propagated as an error. -/
theorem c2_fail_mode (engine : Engine) (mode : OperationMode)
    (resource : CedarResource) (b : TokenBundle) (action : String) (e : String)
    (h : engine (mk_request resource b action) = .error e) :
    authorize_row engine mode .Closed resource b action = .ok false ∧
    authorize_row engine mode .Open resource b action = .ok true ∧
    ∀ fm : FailMode, ∃ d : Bool, authorize_row engine mode fm resource b action = .ok d := by
  refine ⟨?_, ?_, ?_⟩
  · simp [authorize_row, h]
  · simp [authorize_row, h]
  · intro fm
    cases fm
    · exact ⟨false, by simp [authorize_row, h]⟩
    · exact ⟨true, by simp [authorize_row, h]⟩

/-- Witness for C2 at a concrete failing engine. -/
theorem c2_fail_mode_witness :
    authorize_row (fun _ => .error "engine down") .Enforcement .Closed
      ⟨"Doc", "1", []⟩ ⟨some "t", none, none⟩ "Read" = .ok false ∧
    authorize_row (fun _ => .error "engine down") .Enforcement .Open
      ⟨"Doc", "1", []⟩ ⟨some "t", none, none⟩ "Read" = .ok true := by
  have h := c2_fail_mode (fun _ => .error "engine down") .Enforcement
    ⟨"Doc", "1", []⟩ ⟨some "t", none, none⟩ "Read" "engine down" rfl
  exact ⟨h.1, h.2.1⟩

/-- C5: when the caller-supplied resource JSON or token-bundle JSON
fails to parse, `authorize_manual` returns a JsonParsing failure, and
the policy engine is never invoked: the result does not depend on the
engine at all. -/
theorem c5_json_failure (pr : String → Except String CedarResource)
    (pt : String → Except String TokenBundle)
    (engine engine' : Engine) (mode : OperationMode) (fm : FailMode)
    (rj tj action : String)
    (h : (∃ e, pr rj = .error e) ∨ ((∃ r, pr rj = .ok r) ∧ ∃ e, pt tj = .error e)) :
    (∃ m, authorize_manual pr pt engine mode fm rj tj action = .error (.JsonParsing m)) ∧
    authorize_manual pr pt engine mode fm rj tj action =
      authorize_manual pr pt engine' mode fm rj tj action := by
  rcases h with ⟨e, he⟩ | ⟨⟨r, hr⟩, ⟨e, he⟩⟩
  · exact ⟨⟨"Invalid resource JSON: " ++ e, by simp [authorize_manual, he]⟩,
      by simp [authorize_manual, he]⟩
  · exact ⟨⟨"Invalid token JSON: " ++ e, by simp [authorize_manual, hr, he]⟩,
      by simp [authorize_manual, hr, he]⟩

/-- Witness for C5: a malformed resource JSON with two different engines. -/
theorem c5_json_failure_witness :
    (∃ m, authorize_manual (fun _ => .error "expected value")
        (fun _ => .ok ⟨some "t", none, none⟩)
        (fun _ => .ok true) .Enforcement .Closed
        "\x7bnot valid json" "{}" "Read" = .error (.JsonParsing m)) ∧
    authorize_manual (fun _ => .error "expected value")
        (fun _ => .ok ⟨some "t", none, none⟩)
        (fun _ => .ok true) .Enforcement .Closed
        "\x7bnot valid json" "{}" "Read" =
      authorize_manual (fun _ => .error "expected value")
        (fun _ => .ok ⟨some "t", none, none⟩)
        (fun _ => .ok false) .Enforcement .Closed
        "\x7bnot valid json" "{}" "Read" :=
  c5_json_failure (fun _ => .error "expected value")
    (fun _ => .ok ⟨some "t", none, none⟩)
    (fun _ => .ok true) (fun _ => .ok false) .Enforcement .Closed
    "\x7bnot valid json" "{}" "Read" (Or.inl ⟨"expected value", rfl⟩)

/-- C7: a bundle with all three tokens absent fails with TokenValidation
immediately; the result is the same for every header decoder, claim
decoder, payload parser, base64 decoder and clock, so no per-token
decoding, claim extraction or consistency checking is ever attempted. -/
theorem c7_empty_bundle (dh : DecodeHeaderFn) (jd : JwtDecodeFn) (pj : ParseJsonFn)
    (b64 : B64Fn) (clock : Clock) (b : TokenBundle)
    (ha : b.access_token = none) (hi : b.id_token = none) (hu : b.userinfo_token = none) :
    TokenBundle.validate dh jd pj b64 clock b =
      .error (.TokenValidation "At least one token must be provided") := by
  simp [TokenBundle.validate, ha, hi, hu]

/-- Witness for C7 on the empty bundle with concrete collaborators. -/
theorem c7_empty_bundle_witness :
    TokenBundle.validate (fun _ => .ok ⟨.RS256⟩) (fun _ => .error "e")
      (fun _ => .error "e") (fun _ => .ok []) (fun _ => 0) ⟨none, none, none⟩ =
      .error (.TokenValidation "At least one token must be provided") :=
  c7_empty_bundle _ _ _ _ _ _ rfl rfl rfl

/-- C6: in standard-claims validation, a present non-integer `exp` is a
hard TokenValidation failure, a present integer `exp` strictly below the
validation time fails as expired, and an absent `exp` contributes no
failure: validation then reduces to the remaining checks. -/
theorem c6_exp_handling (now : Int) (claims : ClaimMap) (token_type : String) :
    (∀ v, getClaim claims "exp" = some v → v.asI64 = none →
      validate_standard_claims now claims token_type =
        .error (.TokenValidation (token_type ++ " has invalid exp claim format"))) ∧
    (∀ v t, getClaim claims "exp" = some v → v.asI64 = some t → t < now →
      validate_standard_claims now claims token_type =
        .error (.TokenValidation (token_type ++ " has expired"))) ∧
    (getClaim claims "exp" = none →
      validate_standard_claims now claims token_type = do
        check_nbf now claims token_type
        check_iat now claims token_type
        check_iss claims token_type
        check_sub claims token_type) := by
  refine ⟨?_, ?_, ?_⟩
  · intro v hv hn
    simp [validate_standard_claims, check_exp, hv, hn, Except.bind, bind]
  · intro v t hv ht hlt
    simp [validate_standard_claims, check_exp, hv, ht, hlt, Except.bind, bind]
  · intro h
    simp [validate_standard_claims, check_exp, h, Except.bind, bind]

/-- Witness for C6: a string-valued `exp`, an expired integer `exp`, and
an absent `exp`, each at validation time 10. -/
theorem c6_exp_handling_witness :
    validate_standard_claims 10 [("exp", Json.str "soon")] "access_token" =
      .error (.TokenValidation ("access_token" ++ " has invalid exp claim format")) ∧
    validate_standard_claims 10 [("exp", Json.num 5)] "access_token" =
      .error (.TokenValidation ("access_token" ++ " has expired")) ∧
    validate_standard_claims 10 [("iss", Json.str "idp")] "access_token" = (do
      check_nbf 10 [("iss", Json.str "idp")] "access_token"
      check_iat 10 [("iss", Json.str "idp")] "access_token"
      check_iss [("iss", Json.str "idp")] "access_token"
      check_sub [("iss", Json.str "idp")] "access_token") :=
  ⟨(c6_exp_handling 10 [("exp", Json.str "soon")] "access_token").1 (Json.str "soon") rfl rfl,
   (c6_exp_handling 10 [("exp", Json.num 5)] "access_token").2.1 (Json.num 5) 5 rfl rfl (by norm_num),
   (c6_exp_handling 10 [("iss", Json.str "idp")] "access_token").2.2 rfl⟩

/-- C4 counterexample: two clocks that agree on the sample taken at
validation start (both read 3 there) give different results on the same
two-token bundle: with every sample equal to 3 the id token (`exp = 5`)
passes, but when the second sample is 10 it is rejected as expired.  So
the `now` used for the second token is re-sampled rather than shared
from validation start, refuting the claim. -/
theorem c4_counterexample :
    c4ClockShared 0 = c4ClockDrift 0 ∧
    TokenBundle.validate c4Dh c4Jd c4Pj c4B64 c4ClockShared c4Bundle = .ok () ∧
    TokenBundle.validate c4Dh c4Jd c4Pj c4B64 c4ClockDrift c4Bundle =
      .error (.TokenValidation "id_token has expired") :=
  ⟨rfl, rfl, rfl⟩

/-- C4 amended: `now` is re-sampled once per validated token rather than
shared across the call: with access and id tokens present the standard
claims of the access token are checked against clock sample 0 and those
of the id token against sample 1; with all three tokens present the userinfo
token uses sample 2. -/
theorem c4_amended_per_token_clock (dh : DecodeHeaderFn) (jd : JwtDecodeFn)
    (pj : ParseJsonFn) (b64 : B64Fn) (clock : Clock) (a i u : String) :
    (TokenBundle.validate dh jd pj b64 clock ⟨some a, some i, none⟩ = do
      validate_jwt_with_signature dh jd pj b64 (clock 0) a "access_token"
      validate_jwt_with_signature dh jd pj b64 (clock 1) i "id_token"
      validate_token_consistency jd pj b64 ⟨some a, some i, none⟩) ∧
    (TokenBundle.validate dh jd pj b64 clock ⟨some a, some i, some u⟩ = do
      validate_jwt_with_signature dh jd pj b64 (clock 0) a "access_token"
      validate_jwt_with_signature dh jd pj b64 (clock 1) i "id_token"
      validate_jwt_with_signature dh jd pj b64 (clock 2) u "userinfo_token"
      validate_token_consistency jd pj b64 ⟨some a, some i, some u⟩) := by
  constructor
  · cases h0 : validate_jwt_with_signature dh jd pj b64 (clock 0) a "access_token" <;>
      cases h1 : validate_jwt_with_signature dh jd pj b64 (clock 1) i "id_token" <;>
        simp [TokenBundle.validate, h0, h1, Except.map, Except.bind, bind]
  · cases h0 : validate_jwt_with_signature dh jd pj b64 (clock 0) a "access_token" <;>
      cases h1 : validate_jwt_with_signature dh jd pj b64 (clock 1) i "id_token" <;>
        cases h2 : validate_jwt_with_signature dh jd pj b64 (clock 2) u "userinfo_token" <;>
          simp [TokenBundle.validate, h0, h1, h2, Except.map, Except.bind, bind]

/-- Binding preserves the OnlyTV property. -/
theorem onlyTV_bind {α β : Type} {r : Except CedarlingError α}
    {f : α → Except CedarlingError β}
    (hr : OnlyTV r) (hf : ∀ x, OnlyTV (f x)) : OnlyTV (r.bind f) := by
  intro e he
  cases r with
  | error e2 =>
    simp [Except.bind] at he
    exact he ▸ hr e2 rfl
  | ok x =>
    simp [Except.bind] at he
    exact hf x e he

/-- Every failure of the expiration check is a TokenValidation error. -/
theorem check_exp_onlyTV (now : Int) (c : ClaimMap) (tt : String) :
    OnlyTV (check_exp now c tt) := by
  intro e he
  unfold check_exp at he
  repeat' split at he
  all_goals simp_all
  all_goals exact ⟨_, he.symm⟩

/-- Every failure of the not-before check is a TokenValidation error. -/
theorem check_nbf_onlyTV (now : Int) (c : ClaimMap) (tt : String) :
    OnlyTV (check_nbf now c tt) := by
  intro e he
  unfold check_nbf at he
  repeat' split at he
  all_goals simp_all
  all_goals exact ⟨_, he.symm⟩

/-- Every failure of the issued-at check is a TokenValidation error. -/
theorem check_iat_onlyTV (now : Int) (c : ClaimMap) (tt : String) :
    OnlyTV (check_iat now c tt) := by
  intro e he
  unfold check_iat at he
  repeat' split at he
  all_goals simp_all
  all_goals exact ⟨_, he.symm⟩

/-- Every failure of the issuer check is a TokenValidation error. -/
theorem check_iss_onlyTV (c : ClaimMap) (tt : String) :
    OnlyTV (check_iss c tt) := by
  intro e he
  unfold check_iss at he
  repeat' split at he
  all_goals simp_all
  all_goals exact ⟨_, he.symm⟩

/-- Every failure of the subject check is a TokenValidation error. -/
theorem check_sub_onlyTV (c : ClaimMap) (tt : String) :
    OnlyTV (check_sub c tt) := by
  intro e he
  unfold check_sub at he
  repeat' split at he
  all_goals simp_all
  all_goals exact ⟨_, he.symm⟩

/-- Every failure of standard-claims validation is a TokenValidation
error. -/
theorem validate_standard_claims_onlyTV (now : Int) (c : ClaimMap) (tt : String) :
    OnlyTV (validate_standard_claims now c tt) := by
  unfold validate_standard_claims
  show OnlyTV ((check_exp now c tt).bind _)
  refine onlyTV_bind (check_exp_onlyTV now c tt) (fun _ => ?_)
  refine onlyTV_bind (check_nbf_onlyTV now c tt) (fun _ => ?_)
  refine onlyTV_bind (check_iat_onlyTV now c tt) (fun _ => ?_)
  exact onlyTV_bind (check_iss_onlyTV c tt) (fun _ => check_sub_onlyTV c tt)

/-- Every failure of the JWT shape check is a TokenValidation error. -/
theorem validate_jwt_format_onlyTV (dh : DecodeHeaderFn) (token tt : String) :
    OnlyTV (validate_jwt_format dh token tt) := by
  intro e he
  unfold validate_jwt_format at he
  by_cases h3 : (splitOnChar '.' token.data).length = 3
  · rw [if_neg (by simp [h3])] at he
    cases hd : dh token <;> rw [hd] at he <;> simp at he
    exact ⟨_, he.symm⟩
  · rw [if_pos (by simp [h3])] at he
    simp at he
    exact ⟨_, he.symm⟩

/-- Every failure of the algorithm gate is a TokenValidation error. -/
theorem check_algorithm_onlyTV (alg : Algorithm) (tt : String) :
    OnlyTV (check_algorithm alg tt) := by
  intro e he
  unfold check_algorithm at he
  repeat' split at he
  all_goals simp_all
  all_goals exact ⟨_, he.symm⟩

/-- When claim extraction succeeds for a token, every failure of its
per-token validation is a TokenValidation error. -/
theorem vjws_onlyTV (dh : DecodeHeaderFn) (jd : JwtDecodeFn) (pj : ParseJsonFn)
    (b64 : B64Fn) (now : Int) (token tt : String) (c : ClaimMap)
    (hex : extract_jwt_claims jd pj b64 token = .ok c) :
    OnlyTV (validate_jwt_with_signature dh jd pj b64 now token tt) := by
  unfold validate_jwt_with_signature
  rw [hex]
  refine onlyTV_bind (validate_jwt_format_onlyTV dh token tt) (fun _ => ?_)
  refine onlyTV_bind ?_ (fun header => ?_)
  · intro e he
    cases hd : dh token <;> rw [hd] at he <;> simp at he
    exact ⟨_, he.symm⟩
  · refine onlyTV_bind (check_algorithm_onlyTV header.alg tt) (fun _ => ?_)
    refine onlyTV_bind (fun e he => by simp at he) (fun claims => ?_)
    exact validate_standard_claims_onlyTV now claims tt

/-- A string mismatch in sub or aud makes the id/userinfo comparison
block fail with TokenValidation. -/
theorem check_id_userinfo_mismatch (ci cu : ClaimMap)
    (hmm : (∃ x y, getStrClaim ci "sub" = some x ∧ getStrClaim cu "sub" = some y ∧ x ≠ y) ∨
           (∃ x y, getStrClaim ci "aud" = some x ∧ getStrClaim cu "aud" = some y ∧ x ≠ y)) :
    ∃ m, check_id_userinfo (some ci) (some cu) = .error (.TokenValidation m) := by
  rcases hmm with ⟨x, y, hsx, hsy, hxy⟩ | ⟨x, y, hax, hay, hxy⟩
  · exact ⟨"id_token sub does not match userinfo_token sub",
      by simp [check_id_userinfo, hsx, hsy, hxy, Except.bind]⟩
  · rcases hs1 : getStrClaim ci "sub" with _ | s1
    · exact ⟨"id_token aud does not match userinfo_token aud",
        by simp [check_id_userinfo, hs1, hax, hay, hxy, Except.bind]⟩
    · rcases hs2 : getStrClaim cu "sub" with _ | s2
      · exact ⟨"id_token aud does not match userinfo_token aud",
          by simp [check_id_userinfo, hs1, hs2, hax, hay, hxy, Except.bind]⟩
      · by_cases hseq : s1 = s2
        · exact ⟨"id_token aud does not match userinfo_token aud",
            by simp [check_id_userinfo, hs1, hs2, hseq, hax, hay, hxy, Except.bind]⟩
        · exact ⟨"id_token sub does not match userinfo_token sub",
            by simp [check_id_userinfo, hs1, hs2, hseq, Except.bind]⟩

/-- When the access and id tokens extract to claim sets with unequal
string client_id/aud, and any userinfo token also extracts, the whole
bundle validation fails with TokenValidation. -/
theorem validate_fails_on_client_id_aud_mismatch (dh : DecodeHeaderFn)
    (jd : JwtDecodeFn) (pj : ParseJsonFn) (b64 : B64Fn) (clock : Clock)
    (a i : String) (uo : Option String) (ca ci : ClaimMap) (x y : String)
    (hexA : extract_jwt_claims jd pj b64 a = .ok ca)
    (hexI : extract_jwt_claims jd pj b64 i = .ok ci)
    (hexU : ∀ u, uo = some u → ∃ cu, extract_jwt_claims jd pj b64 u = .ok cu)
    (hx : getStrClaim ca "client_id" = some x)
    (hy : getStrClaim ci "aud" = some y) (hxy : x ≠ y) :
    ∃ m, TokenBundle.validate dh jd pj b64 clock ⟨some a, some i, uo⟩ =
      .error (.TokenValidation m) := by
  have hcons : validate_token_consistency jd pj b64 ⟨some a, some i, uo⟩ =
      .error (.TokenValidation "access_token client_id does not match id_token aud") := by
    rcases uo with _ | u
    · simp [validate_token_consistency, check_access_id, hexA, hexI, hx, hy, hxy,
        Except.map, Except.bind]
    · obtain ⟨cu, hu⟩ := hexU u rfl
      simp [validate_token_consistency, check_access_id, hexA, hexI, hu, hx, hy, hxy,
        Except.map, Except.bind]
  cases hA : validate_jwt_with_signature dh jd pj b64 (clock 0) a "access_token" with
  | error eA =>
    obtain ⟨m, hm⟩ := vjws_onlyTV dh jd pj b64 (clock 0) a "access_token" ca hexA eA hA
    exact ⟨m, by simp [TokenBundle.validate, hA, hm, Except.map, Except.bind]⟩
  | ok _ =>
    cases hI : validate_jwt_with_signature dh jd pj b64 (clock 1) i "id_token" with
    | error eI =>
      obtain ⟨m, hm⟩ := vjws_onlyTV dh jd pj b64 (clock 1) i "id_token" ci hexI eI hI
      exact ⟨m, by simp [TokenBundle.validate, hA, hI, hm, Except.map, Except.bind]⟩
    | ok _ =>
      rcases uo with _ | u
      · exact ⟨"access_token client_id does not match id_token aud",
          by simp [TokenBundle.validate, hA, hI, hcons, Except.map, Except.bind]⟩
      · obtain ⟨cu, hu⟩ := hexU u rfl
        cases hU : validate_jwt_with_signature dh jd pj b64 (clock 2) u "userinfo_token" with
        | error eU =>
          obtain ⟨m, hm⟩ := vjws_onlyTV dh jd pj b64 (clock 2) u "userinfo_token" cu hu eU hU
          exact ⟨m, by simp [TokenBundle.validate, hA, hI, hU, hm, Except.map, Except.bind]⟩
        | ok _ =>
          exact ⟨"access_token client_id does not match id_token aud",
            by simp [TokenBundle.validate, hA, hI, hU, hcons, Except.map, Except.bind]⟩

/-- When both per-token validations pass and the client_id/aud
comparison cannot trip, an iss mismatch alone leaves the whole bundle
validation successful. -/
theorem validate_ok_despite_iss_mismatch (dh : DecodeHeaderFn)
    (jd : JwtDecodeFn) (pj : ParseJsonFn) (b64 : B64Fn) (clock : Clock)
    (a i : String) (ca ci : ClaimMap)
    (hA : validate_jwt_with_signature dh jd pj b64 (clock 0) a "access_token" = .ok ())
    (hI : validate_jwt_with_signature dh jd pj b64 (clock 1) i "id_token" = .ok ())
    (hexA : extract_jwt_claims jd pj b64 a = .ok ca)
    (hexI : extract_jwt_claims jd pj b64 i = .ok ci)
    (hcompat : ∀ x y, getStrClaim ca "client_id" = some x →
      getStrClaim ci "aud" = some y → x = y) :
    TokenBundle.validate dh jd pj b64 clock ⟨some a, some i, none⟩ = .ok () := by
  have hcons : validate_token_consistency jd pj b64 ⟨some a, some i, none⟩ = .ok () := by
    rcases hc : getStrClaim ca "client_id" with _ | x
    · simp [validate_token_consistency, check_access_id, check_id_userinfo, hexA, hexI, hc,
        Except.map, Except.bind]
    · rcases hd2 : getStrClaim ci "aud" with _ | y
      · simp [validate_token_consistency, check_access_id, check_id_userinfo, hexA, hexI,
          hc, hd2, Except.map, Except.bind]
      · have hxy : x = y := hcompat x y hc hd2
        simp [validate_token_consistency, check_access_id, check_id_userinfo, hexA, hexI,
          hc, hd2, hxy, Except.map, Except.bind]
  simp [TokenBundle.validate, hA, hI, hcons, Except.map, Except.bind]

/-- When the id and userinfo tokens extract to claim sets with a string
mismatch in sub or in aud, and any access token also extracts, the whole
bundle validation fails with TokenValidation. -/
theorem validate_fails_on_id_userinfo_mismatch (dh : DecodeHeaderFn)
    (jd : JwtDecodeFn) (pj : ParseJsonFn) (b64 : B64Fn) (clock : Clock)
    (i u : String) (ao : Option String) (ci cu : ClaimMap)
    (hexAo : ∀ a, ao = some a → ∃ ca, extract_jwt_claims jd pj b64 a = .ok ca)
    (hexI : extract_jwt_claims jd pj b64 i = .ok ci)
    (hexU : extract_jwt_claims jd pj b64 u = .ok cu)
    (hmm : (∃ x y, getStrClaim ci "sub" = some x ∧ getStrClaim cu "sub" = some y ∧ x ≠ y) ∨
           (∃ x y, getStrClaim ci "aud" = some x ∧ getStrClaim cu "aud" = some y ∧ x ≠ y)) :
    ∃ m, TokenBundle.validate dh jd pj b64 clock ⟨ao, some i, some u⟩ =
      .error (.TokenValidation m) := by
  obtain ⟨miu, hiu⟩ := check_id_userinfo_mismatch ci cu hmm
  rcases ao with _ | a
  · have hcons : validate_token_consistency jd pj b64 ⟨none, some i, some u⟩ =
        .error (.TokenValidation miu) := by
      simp [validate_token_consistency, check_access_id, hexI, hexU,
        Except.map, Except.bind]
      exact hiu
    cases hI : validate_jwt_with_signature dh jd pj b64 (clock 0) i "id_token" with
    | error eI =>
      obtain ⟨m, hm⟩ := vjws_onlyTV dh jd pj b64 (clock 0) i "id_token" ci hexI eI hI
      exact ⟨m, by simp [TokenBundle.validate, hI, hm, Except.map, Except.bind]⟩
    | ok _ =>
      cases hU : validate_jwt_with_signature dh jd pj b64 (clock 1) u "userinfo_token" with
      | error eU =>
        obtain ⟨m, hm⟩ := vjws_onlyTV dh jd pj b64 (clock 1) u "userinfo_token" cu hexU eU hU
        exact ⟨m, by simp [TokenBundle.validate, hI, hU, hm, Except.map, Except.bind]⟩
      | ok _ =>
        exact ⟨miu, by simp [TokenBundle.validate, hI, hU, hcons, Except.map, Except.bind]⟩
  · obtain ⟨ca, hexA⟩ := hexAo a rfl
    have hcons : ∃ m, validate_token_consistency jd pj b64 ⟨some a, some i, some u⟩ =
        .error (.TokenValidation m) := by
      rcases hc : getStrClaim ca "client_id" with _ | x
      · refine ⟨miu, ?_⟩
        simp [validate_token_consistency, check_access_id, hexA, hexI, hexU, hc,
          Except.map, Except.bind]
        exact hiu
      · rcases hd2 : getStrClaim ci "aud" with _ | y
        · refine ⟨miu, ?_⟩
          simp [validate_token_consistency, check_access_id, hexA, hexI, hexU, hc, hd2,
            Except.map, Except.bind]
          exact hiu
        · by_cases hxy : x = y
          · refine ⟨miu, ?_⟩
            simp [validate_token_consistency, check_access_id, hexA, hexI, hexU, hc, hd2,
              hxy, Except.map, Except.bind]
            exact hiu
          · exact ⟨"access_token client_id does not match id_token aud",
              by simp [validate_token_consistency, check_access_id, hexA, hexI, hexU,
                hc, hd2, hxy, Except.map, Except.bind]⟩
    obtain ⟨mc, hmc⟩ := hcons
    cases hA : validate_jwt_with_signature dh jd pj b64 (clock 0) a "access_token" with
    | error eA =>
      obtain ⟨m, hm⟩ := vjws_onlyTV dh jd pj b64 (clock 0) a "access_token" ca hexA eA hA
      exact ⟨m, by simp [TokenBundle.validate, hA, hm, Except.map, Except.bind]⟩
    | ok _ =>
      cases hI : validate_jwt_with_signature dh jd pj b64 (clock 1) i "id_token" with
      | error eI =>
        obtain ⟨m, hm⟩ := vjws_onlyTV dh jd pj b64 (clock 1) i "id_token" ci hexI eI hI
        exact ⟨m, by simp [TokenBundle.validate, hA, hI, hm, Except.map, Except.bind]⟩
      | ok _ =>
        cases hU : validate_jwt_with_signature dh jd pj b64 (clock 2) u "userinfo_token" with
        | error eU =>
          obtain ⟨m, hm⟩ := vjws_onlyTV dh jd pj b64 (clock 2) u "userinfo_token" cu hexU eU hU
          exact ⟨m, by simp [TokenBundle.validate, hA, hI, hU, hm, Except.map, Except.bind]⟩
        | ok _ =>
          exact ⟨mc, by simp [TokenBundle.validate, hA, hI, hU, hmc, Except.map, Except.bind]⟩

/-- C3 counterexample: a bundle whose access and id tokens carry present,
unequal string client_id/aud claims, but whose userinfo token payload
fails JSON parsing: `TokenBundle.validate` fails with JsonParsing, not
TokenValidation, so the claimed error kind does not hold for every such
bundle. -/
theorem c3_counterexample :
    extract_jwt_claims c3Jd c3Pj c3B64 "A.a.a" =
      .ok [("iss", Json.str "s"), ("client_id", Json.str "x")] ∧
    extract_jwt_claims c3Jd c3Pj c3B64 "B.b.b" =
      .ok [("iss", Json.str "s"), ("aud", Json.str "y")] ∧
    getStrClaim [("iss", Json.str "s"), ("client_id", Json.str "x")] "client_id" = some "x" ∧
    getStrClaim [("iss", Json.str "s"), ("aud", Json.str "y")] "aud" = some "y" ∧
    ("x" : String) ≠ "y" ∧
    TokenBundle.validate c3Dh c3Jd c3Pj c3B64 (fun _ => 0) c3Bundle =
      .error (.JsonParsing "Failed to parse JWT payload: expected value at line 1") :=
  ⟨rfl, rfl, rfl, rfl, by decide, rfl⟩

/-- C3 (amended): when the access and id tokens extract with unequal
string client_id/aud and every present token extracts, validate fails
with TokenValidation; an iss mismatch alone (other checks passing)
leaves validate successful; and a string mismatch in sub or aud between
extracted id and userinfo tokens makes validate fail with
TokenValidation whenever every present token extracts.  The amendment:
the TokenValidation kind is guaranteed only when claim extraction
succeeds for every token present in the bundle, otherwise the failure
can surface as JsonParsing. -/
theorem c3_cross_token_checks :
    (∀ (dh : DecodeHeaderFn) (jd : JwtDecodeFn) (pj : ParseJsonFn) (b64 : B64Fn)
       (clock : Clock) (a i : String) (uo : Option String) (ca ci : ClaimMap) (x y : String),
       extract_jwt_claims jd pj b64 a = .ok ca →
       extract_jwt_claims jd pj b64 i = .ok ci →
       (∀ u, uo = some u → ∃ cu, extract_jwt_claims jd pj b64 u = .ok cu) →
       getStrClaim ca "client_id" = some x →
       getStrClaim ci "aud" = some y → x ≠ y →
       ∃ m, TokenBundle.validate dh jd pj b64 clock ⟨some a, some i, uo⟩ =
         .error (.TokenValidation m)) ∧
    (∀ (dh : DecodeHeaderFn) (jd : JwtDecodeFn) (pj : ParseJsonFn) (b64 : B64Fn)
       (clock : Clock) (a i : String) (ca ci : ClaimMap) (s1 s2 : String),
       validate_jwt_with_signature dh jd pj b64 (clock 0) a "access_token" = .ok () →
       validate_jwt_with_signature dh jd pj b64 (clock 1) i "id_token" = .ok () →
       extract_jwt_claims jd pj b64 a = .ok ca →
       extract_jwt_claims jd pj b64 i = .ok ci →
       getStrClaim ca "iss" = some s1 → getStrClaim ci "iss" = some s2 → s1 ≠ s2 →
       (∀ x y, getStrClaim ca "client_id" = some x →
         getStrClaim ci "aud" = some y → x = y) →
       TokenBundle.validate dh jd pj b64 clock ⟨some a, some i, none⟩ = .ok ()) ∧
    (∀ (dh : DecodeHeaderFn) (jd : JwtDecodeFn) (pj : ParseJsonFn) (b64 : B64Fn)
       (clock : Clock) (i u : String) (ao : Option String) (ci cu : ClaimMap),
       (∀ a, ao = some a → ∃ ca, extract_jwt_claims jd pj b64 a = .ok ca) →
       extract_jwt_claims jd pj b64 i = .ok ci →
       extract_jwt_claims jd pj b64 u = .ok cu →
       ((∃ x y, getStrClaim ci "sub" = some x ∧ getStrClaim cu "sub" = some y ∧ x ≠ y) ∨
        (∃ x y, getStrClaim ci "aud" = some x ∧ getStrClaim cu "aud" = some y ∧ x ≠ y)) →
       ∃ m, TokenBundle.validate dh jd pj b64 clock ⟨ao, some i, some u⟩ =
         .error (.TokenValidation m)) :=
  ⟨fun dh jd pj b64 clock a i uo ca ci x y hexA hexI hexU hx hy hxy =>
    validate_fails_on_client_id_aud_mismatch dh jd pj b64 clock a i uo ca ci x y
      hexA hexI hexU hx hy hxy,
   fun dh jd pj b64 clock a i ca ci _ _ hA hI hexA hexI _ _ _ hcompat =>
    validate_ok_despite_iss_mismatch dh jd pj b64 clock a i ca ci hA hI hexA hexI hcompat,
   fun dh jd pj b64 clock i u ao ci cu hexAo hexI hexU hmm =>
    validate_fails_on_id_userinfo_mismatch dh jd pj b64 clock i u ao ci cu
      hexAo hexI hexU hmm⟩

/-- Witness for C3: a client_id/aud mismatch fails, an iss-only mismatch
succeeds, and an id/userinfo sub mismatch fails, on concrete bundles. -/
theorem c3_cross_token_checks_witness :
    (∃ m, TokenBundle.validate c3wDh c3wJd c3wPj c3wB64 (fun _ => 0)
      ⟨some "A.a.a", some "B.b.b", none⟩ = .error (.TokenValidation m)) ∧
    TokenBundle.validate c3wDh c3wJd c3wPj c3wB64 (fun _ => 0)
      ⟨some "D.d.d", some "E.e.e", none⟩ = .ok () ∧
    (∃ m, TokenBundle.validate c3wDh c3wJd c3wPj c3wB64 (fun _ => 0)
      ⟨none, some "F.f.f", some "G.g.g"⟩ = .error (.TokenValidation m)) :=
  ⟨c3_cross_token_checks.1 c3wDh c3wJd c3wPj c3wB64 (fun _ => 0) "A.a.a" "B.b.b" none
      _ _ "x" "y" rfl rfl (fun _ h => Option.noConfusion h) rfl rfl (by decide),
   c3_cross_token_checks.2.1 c3wDh c3wJd c3wPj c3wB64 (fun _ => 0) "D.d.d" "E.e.e"
      _ _ "sa" "sb" rfl rfl rfl rfl rfl rfl (by decide)
      (fun _ _ hx _ => Option.noConfusion hx),
   c3_cross_token_checks.2.2 c3wDh c3wJd c3wPj c3wB64 (fun _ => 0) "F.f.f" "G.g.g" none
      _ _ (fun _ h => Option.noConfusion h) rfl rfl
      (Or.inl ⟨"u1", "u2", rfl, rfl, by decide⟩)⟩

/-- C9: the cross-token consistency checks compare a claim pair only
when both values read as JSON strings: when for each hard comparison at
least one side is not a string, consistency validation succeeds, even
when the values disagree. -/
theorem c9_consistency_skips_non_string (jd : JwtDecodeFn) (pj : ParseJsonFn)
    (b64 : B64Fn) (a i u : String) (ca ci cu : ClaimMap)
    (hexA : extract_jwt_claims jd pj b64 a = .ok ca)
    (hexI : extract_jwt_claims jd pj b64 i = .ok ci)
    (hexU : extract_jwt_claims jd pj b64 u = .ok cu)
    (h1 : getStrClaim ca "client_id" = none ∨ getStrClaim ci "aud" = none)
    (h2 : getStrClaim ci "sub" = none ∨ getStrClaim cu "sub" = none)
    (h3 : getStrClaim ci "aud" = none ∨ getStrClaim cu "aud" = none) :
    validate_token_consistency jd pj b64 ⟨some a, some i, some u⟩ = .ok () := by
  have hai : check_access_id (some ca) (some ci) = .ok () := by
    rcases h1 with h1 | h1
    · simp [check_access_id, h1]
    · rcases hc : getStrClaim ca "client_id" with _ | x <;> simp [check_access_id, hc, h1]
  have hiu : check_id_userinfo (some ci) (some cu) = .ok () := by
    rcases hs1 : getStrClaim ci "sub" with _ | s1 <;>
      rcases hs2 : getStrClaim cu "sub" with _ | s2 <;>
        rcases ha1 : getStrClaim ci "aud" with _ | a1 <;>
          rcases ha2 : getStrClaim cu "aud" with _ | a2 <;>
            simp_all [check_id_userinfo, Except.bind]
  simp [validate_token_consistency, hexA, hexI, hexU, hai, hiu, Except.map, Except.bind]

/-- Witness for C9: aud given as disagreeing JSON arrays and sub as
disagreeing numbers are silently skipped and consistency succeeds. -/
theorem c9_consistency_skips_non_string_witness :
    validate_token_consistency c9Jd c9Pj c9B64
      ⟨some "A.a.a", some "B.b.b", some "C.c.c"⟩ = .ok () :=
  c9_consistency_skips_non_string c9Jd c9Pj c9B64 "A.a.a" "B.b.b" "C.c.c" _ _ _
    rfl rfl rfl (Or.inl rfl) (Or.inl rfl) (Or.inl rfl)

/-- C10: claim extraction does not enforce the 3-segment JWT shape: any
token with at least two dot-separated segments whose second segment
base64url-decodes to parseable JSON extracts successfully, both through
`extract_jwt_claims` and through `TokenBundle.extract_claims`, while a
2-segment token is rejected by `validate_jwt_format`. -/
theorem c10_extract_claims_lenient (dh : DecodeHeaderFn) (jd : JwtDecodeFn)
    (pj : ParseJsonFn) (b64 : B64Fn) (t : String) (bytes : List Nat) (claims : ClaimMap)
    (hlen : 2 ≤ (splitOnChar '.' t.data).length)
    (hb : base64_decode_jwt_part b64 ((splitOnChar '.' t.data).getD 1 []) = .ok bytes)
    (hp : pj bytes = .ok claims) :
    (∃ c, extract_jwt_claims jd pj b64 t = .ok c) ∧
    (∃ r, TokenBundle.extract_claims jd pj b64 ⟨some t, none, none⟩ = .ok r) ∧
    ((splitOnChar '.' t.data).length = 2 →
      ∃ m, validate_jwt_format dh t "access_token" = .error (.TokenValidation m)) := by
  have hex : ∃ c, extract_jwt_claims jd pj b64 t = .ok c := by
    cases hjd : jd t with
    | ok c => exact ⟨c, by simp [extract_jwt_claims, hjd]⟩
    | error e =>
      simp only [List.getD_eq_getElem?_getD] at hb
      exact ⟨claims, by simp [extract_jwt_claims, hjd, hlen, hb, hp]⟩
  obtain ⟨c, hc⟩ := hex
  refine ⟨⟨c, hc⟩, ?_, ?_⟩
  · exact ⟨⟨(merge_claims ([], []) c "access_token").1,
      (merge_claims ([], []) c "access_token").2⟩,
      by simp [TokenBundle.extract_claims, hc, Except.map, Except.bind]⟩
  · intro h2
    exact ⟨"access_token does not have valid JWT format",
      by simp [validate_jwt_format, h2]⟩

/-- Witness for C10: the 2-segment token "A.AAAA" extracts successfully
but is rejected by the format check. -/
theorem c10_extract_claims_lenient_witness :
    (∃ c, extract_jwt_claims c10Jd c10Pj c10B64 "A.AAAA" = .ok c) ∧
    (∃ r, TokenBundle.extract_claims c10Jd c10Pj c10B64
      ⟨some "A.AAAA", none, none⟩ = .ok r) ∧
    (∃ m, validate_jwt_format c10Dh "A.AAAA" "access_token" =
      .error (.TokenValidation m)) :=
  have h := c10_extract_claims_lenient c10Dh c10Jd c10Pj c10B64 "A.AAAA" []
    [("role", Json.str "admin")] (by decide) rfl rfl
  ⟨h.1, h.2.1, h.2.2 (by decide)⟩
